import Mathlib

/-!
Shallow embedding of `python/npcomp/compiler/pytorch/backend/refjit.py`.

The file under verification is a thin orchestration wrapper around an
external MLIR pass-management engine and an external reference-JIT backend.
We embed it as follows:

* the two pass-name tuples become Lean lists of strings;
* the MLIR `Module` is an abstract type `M`, threaded explicitly: Python
  mutates the module in place, so every operation that runs passes returns
  the module's new state alongside its other results;
* the external collaborators (`PassManager.parse`, `pm.run`,
  `PassManager()`, `refjit.build_backend_compilation_pipeline`,
  `refjit_backend.get_runtime_libs`, `refjit.JITModule.from_compiled_module`)
  are fields of an environment record `Env`, with fallible calls returning
  `Except`;
* every call into an external collaborator, and every `logging.debug` call,
  is recorded in an event trace, so that sequencing, error propagation and
  call counts are observable.
-/

namespace RefJit

/-- The set of passes that lowers from a TorchScript object graph
representation to a module semantics where symbols correspond to dotted
paths into the module (tuple `OBJECT_GRAPH_LOWERING_PASSES` in the source,
in order). -/
def OBJECT_GRAPH_LOWERING_PASSES : List String :=
  [ "torch-globalize-pipeline",
    "symbol-dce",
    "torch-adjust-calling-conventions" ]

/-- The torch-to-TCF frontend passes (tuple `TORCH_TO_TCF_PASSES` in the
source, in order). -/
def TORCH_TO_TCF_PASSES : List String :=
  [ "func(aten-recognize-kernels)",
    "numpy-public-functions-to-tensor",
    "func(numpy-array-to-tensor)",
    "func(torch-refine-types)",
    "numpy-refine-public-return",
    "func(numpy-array-to-tensor)",
    "func(convert-aten-to-tcf)" ]

/-- The frontend pipeline string computed by `compile`:
`",".join(TORCH_TO_TCF_PASSES)`. -/
def tcfPipelineStr : String := String.intercalate "," TORCH_TO_TCF_PASSES

/-- The object-graph lowering pipeline string computed by
`compile_object_graph`: `",".join(OBJECT_GRAPH_LOWERING_PASSES)`. -/
def objectGraphPipelineStr : String :=
  String.intercalate "," OBJECT_GRAPH_LOWERING_PASSES

/-- A Python value passed to a module invoker: a `torch.Tensor`, a numpy
array, or anything else. `T`, `N`, `O` are the abstract types of tensors,
numpy arrays and other values. -/
inductive PyVal (T N O : Type) where
  | tensor (t : T)
  | numpy (n : N)
  | other (o : O)
deriving DecidableEq, Repr

/-- Whether a value is a `torch.Tensor` (the `isinstance` test in
`TorchJitModuleInvoker.__getitem__`). -/
def PyVal.isTensor {T N O : Type} : PyVal T N O → Bool
  | PyVal.tensor _ => true
  | PyVal.numpy _ => false
  | PyVal.other _ => false

/-- The per-argument conversion done by the adapter returned by
`TorchJitModuleInvoker.__getitem__`:
`arg.numpy() if isinstance(arg, torch.Tensor) else arg`, where `numpyOf`
embeds `torch.Tensor.numpy`. -/
def convertArg {T N O : Type} (numpyOf : T → N) : PyVal T N O → PyVal T N O
  | PyVal.tensor t => PyVal.numpy (numpyOf t)
  | PyVal.numpy n => PyVal.numpy n
  | PyVal.other o => PyVal.other o

/-- `TorchJitModuleInvoker.__getitem__`: obtain `numpy_invoke` from the
parent class (`superGetItem functionName`), and return the adapter that
converts each tensor argument to its numpy array and delegates. `Res` is
the abstract type of invocation results. -/
def torchGetItem {T N O Res : Type}
    (superGetItem : String → List (PyVal T N O) → Res)
    (numpyOf : T → N) (functionName : String) :
    List (PyVal T N O) → Res :=
  let numpyInvoke := superGetItem functionName
  fun args => numpyInvoke (List.map (convertArg numpyOf) args)

/-- The result of `CompilerBackend.load`: a `TorchJitModuleInvoker`
wrapping exactly the given jit module. `J` is the abstract type of the
opaque backend-specific jit modules. -/
structure TorchJitModuleInvoker (J : Type) where
  jitModule : J
deriving DecidableEq, Repr

/-- One observable event of the orchestration code: a call into an
external collaborator, or a `logging.debug` call. `P` is the abstract
type of pass managers, `M` of MLIR modules, `L` of runtime-library
descriptions. -/
inductive Event (P M L : Type) where
  | logDebugModule (tag : String) (m : M)
  | logDebugPipeline (tag : String) (pipelineStr : String)
  | parsePass (pipelineStr : String)
  | runPM (pm : P) (m : M)
  | newPassManager
  | buildBackendCompilationPipeline (pm : P)
  | getRuntimeLibs
  | fromCompiledModule (m : M) (libs : L)
deriving DecidableEq, Repr

/-- Whether an event is a call into an external collaborator (everything
except `logging.debug` calls). -/
def Event.isExternCall {P M L : Type} : Event P M L → Bool
  | Event.logDebugModule _ _ => false
  | Event.logDebugPipeline _ _ => false
  | _ => true

/-- The external collaborators of the file, abstracted: the MLIR pass
manager engine and the reference-JIT backend object (of abstract type `R`,
the value of `self._refjit`). Fallible calls return `Except E`. Running a
pass manager on a module returns the module's new state. -/
structure Env (R P M J L E : Type) where
  parsePipeline : String → Except E P
  runPM : P → M → Except E M
  newPassManager : P
  buildBackendCompilationPipeline : R → P → P
  getRuntimeLibs : L
  fromCompiledModule : R → M → L → J

/-- The `CompilerBackend` object: its only fields, assigned in
`__init__` and never reassigned. -/
structure CompilerBackend (R : Type) where
  _refjit : R
  _debug : Bool
deriving DecidableEq, Repr

/-- `CompilerBackend.__init__`: store the refjit object and the debug
flag. -/
def CompilerBackend.init {R : Type} (refjitObj : R) (debugEnabled : Bool) :
    CompilerBackend R :=
  ⟨refjitObj, debugEnabled⟩

/-- `CompilerBackend.compile`. Returns the outcome (the final state of the
caller's module together with the jit module, or the propagated error) and
the trace of external calls and debug logs, in execution order. -/
def CompilerBackend.compile {R P M J L E : Type} (env : Env R P M J L E)
    (b : CompilerBackend R) (m : M) :
    Except E (M × J) × List (Event P M L) :=
  let dbg1 : List (Event P M L) :=
    if b._debug then [Event.logDebugModule "Initial PyTorch IR" m] else []
  let dbg2 : List (Event P M L) :=
    if b._debug then
      [Event.logDebugPipeline "Running Torch->TCF pipeline" tcfPipelineStr]
    else []
  let ev0 := dbg1 ++ dbg2 ++ [Event.parsePass tcfPipelineStr]
  match env.parsePipeline tcfPipelineStr with
  | Except.error e => (Except.error e, ev0)
  | Except.ok pm =>
    let ev1 := ev0 ++ [Event.runPM pm m]
    match env.runPM pm m with
    | Except.error e => (Except.error e, ev1)
    | Except.ok m1 =>
      let dbg3 : List (Event P M L) :=
        if b._debug then [Event.logDebugModule "TCF IR" m1] else []
      let pm2 := env.buildBackendCompilationPipeline b._refjit env.newPassManager
      let ev2 := ev1 ++ dbg3 ++
        [Event.newPassManager,
         Event.buildBackendCompilationPipeline env.newPassManager,
         Event.runPM pm2 m1]
      match env.runPM pm2 m1 with
      | Except.error e => (Except.error e, ev2)
      | Except.ok m2 =>
        let dbg4 : List (Event P M L) :=
          if b._debug then [Event.logDebugModule "Backend IR" m2] else []
        let jit := env.fromCompiledModule b._refjit m2 env.getRuntimeLibs
        (Except.ok (m2, jit),
         ev2 ++ dbg4 ++
           [Event.getRuntimeLibs,
            Event.fromCompiledModule m2 env.getRuntimeLibs])

/-- `CompilerBackend.compile_object_graph`: run the object-graph lowering
pipeline on the module, then hand the transformed module to `compile`. -/
def CompilerBackend.compileObjectGraph {R P M J L E : Type}
    (env : Env R P M J L E) (b : CompilerBackend R) (m : M) :
    Except E (M × J) × List (Event P M L) :=
  let dbg1 : List (Event P M L) :=
    if b._debug then
      [Event.logDebugModule "Initial PyTorch object graph IR" m]
    else []
  let dbg2 : List (Event P M L) :=
    if b._debug then
      [Event.logDebugPipeline "Running Torch object graph lowering pipeline"
        objectGraphPipelineStr]
    else []
  let ev0 := dbg1 ++ dbg2 ++ [Event.parsePass objectGraphPipelineStr]
  match env.parsePipeline objectGraphPipelineStr with
  | Except.error e => (Except.error e, ev0)
  | Except.ok pm =>
    let ev1 := ev0 ++ [Event.runPM pm m]
    match env.runPM pm m with
    | Except.error e => (Except.error e, ev1)
    | Except.ok m1 =>
      let res := CompilerBackend.compile env b m1
      (res.1, ev1 ++ res.2)

/-- `CompilerBackend.load`: wrap the compiled artifact in a
`TorchJitModuleInvoker`. No external calls are made. -/
def CompilerBackend.load {R J P M L : Type} (_b : CompilerBackend R) (j : J) :
    TorchJitModuleInvoker J × List (Event P M L) :=
  (TorchJitModuleInvoker.mk j, [])

/-- One call of a `CompilerBackend` method, for reasoning about arbitrary
call sequences on one backend object. -/
inductive MethodCall (M J : Type) where
  | compile (m : M)
  | compileObjectGraph (m : M)
  | load (j : J)

/-- State-transformer view of the methods: each method call returns the
backend object's fields afterwards. None of the three methods assigns a
field, so each returns the fields it received. -/
def CompilerBackend.step {R P M J L E : Type} (env : Env R P M J L E)
    (b : CompilerBackend R) : MethodCall M J → CompilerBackend R
  | MethodCall.compile m =>
      let _ := CompilerBackend.compile env b m
      b
  | MethodCall.compileObjectGraph m =>
      let _ := CompilerBackend.compileObjectGraph env b m
      b
  | MethodCall.load j =>
      let _ := CompilerBackend.load (P := P) (M := M) (L := L) b j
      b

/-! ## Concrete instantiations used as executable test vectors

Pass managers are represented by their pipeline string; a module is the
list of pipeline strings that were run on it, so that each pipeline run
observably changes the module. The jit type is also `List String`
(`from_compiled_module` returns the module it was handed). -/

/-- An environment in which every external call succeeds. -/
def envOk : Env Unit String (List String) (List String) Unit Nat :=
  ⟨fun s => Except.ok s,
   fun pm m => Except.ok (m ++ [pm]),
   "",
   fun _ pm => pm ++ "backend",
   (),
   fun _ m _ => m⟩

/-- An environment in which `PassManager.parse` raises. -/
def envParseFail : Env Unit String (List String) (List String) Unit Nat :=
  ⟨fun _ => Except.error 7,
   fun pm m => Except.ok (m ++ [pm]),
   "",
   fun _ pm => pm ++ "backend",
   (),
   fun _ m _ => m⟩

/-- An environment in which every pipeline run raises. -/
def envRunFail : Env Unit String (List String) (List String) Unit Nat :=
  ⟨fun s => Except.ok s,
   fun _ _ => Except.error 9,
   "",
   fun _ pm => pm ++ "backend",
   (),
   fun _ m _ => m⟩

/-- An environment in which only the backend pipeline run raises. -/
def envBackendRunFail : Env Unit String (List String) (List String) Unit Nat :=
  ⟨fun s => Except.ok s,
   fun pm m => if pm = "backend" then Except.error 11 else Except.ok (m ++ [pm]),
   "",
   fun _ pm => pm ++ "backend",
   (),
   fun _ m _ => m⟩

/-- A backend object with debug logging off. -/
def bQuiet : CompilerBackend Unit := CompilerBackend.init () false

/-- A backend object with debug logging on. -/
def bDebug : CompilerBackend Unit := CompilerBackend.init () true

/-! ## Claims -/

/-- Claim C4: the module's observable configuration is exactly two ordered
lists of textual pass names: `OBJECT_GRAPH_LOWERING_PASSES` is exactly the
ordered triple shown, and `TORCH_TO_TCF_PASSES` is exactly the ordered
7-tuple shown, in which "func(numpy-array-to-tensor)" occurs twice. -/
theorem refjit_c4 :
    OBJECT_GRAPH_LOWERING_PASSES =
      [ "torch-globalize-pipeline",
        "symbol-dce",
        "torch-adjust-calling-conventions" ]
    ∧ OBJECT_GRAPH_LOWERING_PASSES.length = 3
    ∧ TORCH_TO_TCF_PASSES =
      [ "func(aten-recognize-kernels)",
        "numpy-public-functions-to-tensor",
        "func(numpy-array-to-tensor)",
        "func(torch-refine-types)",
        "numpy-refine-public-return",
        "func(numpy-array-to-tensor)",
        "func(convert-aten-to-tcf)" ]
    ∧ TORCH_TO_TCF_PASSES.length = 7
    ∧ TORCH_TO_TCF_PASSES.count "func(numpy-array-to-tensor)" = 2 := by
  refine ⟨rfl, rfl, rfl, rfl, ?_⟩
  decide

/-- Claim C2: for every function name and argument list, the invoker
returned by `TorchJitModuleInvoker.__getitem__` converts each
`torch.Tensor` argument to its numpy array, leaves every non-tensor
argument unchanged, preserves the number and order of arguments, and
returns exactly the value produced by delegating the converted arguments
to the invoker obtained from the parent class. -/
theorem refjit_c2 {T N O Res : Type}
    (superGetItem : String → List (PyVal T N O) → Res)
    (numpyOf : T → N) (functionName : String) (args : List (PyVal T N O)) :
    torchGetItem superGetItem numpyOf functionName args
      = superGetItem functionName (List.map (convertArg numpyOf) args)
    ∧ (List.map (convertArg numpyOf) args).length = args.length
    ∧ (∀ i : Nat,
        (List.map (convertArg numpyOf) args)[i]?
          = (args[i]?).map (convertArg numpyOf))
    ∧ (∀ v ∈ args, v.isTensor = false → convertArg numpyOf v = v)
    ∧ (∀ t : T, convertArg (O := O) numpyOf (PyVal.tensor t)
          = PyVal.numpy (numpyOf t)) := by
  refine ⟨rfl, List.length_map _ _, ?_, ?_, fun t => rfl⟩
  · intro i
    exact List.getElem?_map (convertArg numpyOf) args i
  · intro v _ hv
    cases v with
    | tensor t => simp [PyVal.isTensor] at hv
    | numpy n => rfl
    | other o => rfl

/-- Witness for claim C2 at a concrete invoker and argument list. -/
theorem refjit_c2_witness :
    torchGetItem (T := Nat) (N := Nat) (O := Bool)
        (fun _ l => l) (fun t => t + 1) "forward"
        [PyVal.tensor 3, PyVal.other true]
      = [PyVal.numpy 4, PyVal.other true]
    ∧ convertArg (T := Nat) (N := Nat) (O := Bool)
        (fun t => t + 1) (PyVal.other true) = PyVal.other true := by
  have h := refjit_c2 (T := Nat) (N := Nat) (O := Bool)
    (fun _ l => l) (fun t => t + 1) "forward"
    [PyVal.tensor 3, PyVal.other true]
  refine ⟨h.1.trans (by decide), ?_⟩
  exact h.2.2.2.1 (PyVal.other true) (by decide) (by decide)

/-- Claim C7: `CompilerBackend.load` forwards the jit module to the
invoker unmodified — it returns a `TorchJitModuleInvoker` built from
exactly the given jit module, and its trace is empty (no pass runs, no
further compilation). -/
theorem refjit_c7 {R J P M L : Type} (b : CompilerBackend R) (j : J) :
    (CompilerBackend.load (P := P) (M := M) (L := L) b j).1
      = TorchJitModuleInvoker.mk j
    ∧ (CompilerBackend.load (P := P) (M := M) (L := L) b j).2 = []
    ∧ ((CompilerBackend.load (P := P) (M := M) (L := L) b j).2.filter
        Event.isExternCall) = [] :=
  ⟨rfl, rfl, rfl⟩

/-- Claim C8: the backend object holds no evolving state: for every
sequence of method calls, the backend's fields (`_refjit` and `_debug`)
are unchanged after each call, hence after the whole sequence. -/
theorem refjit_c8 {R P M J L E : Type} (env : Env R P M J L E)
    (b : CompilerBackend R) (calls : List (MethodCall M J)) :
    List.foldl (CompilerBackend.step env) b calls = b
    ∧ (∀ c : MethodCall M J, CompilerBackend.step env b c = b) := by
  constructor
  · induction calls with
    | nil => rfl
    | cons c cs ih =>
      cases c <;> simpa [CompilerBackend.step] using ih
  · intro c
    cases c <;> rfl

/-- Claim C1: `CompilerBackend.compile` first runs the frontend pipeline
whose string is exactly the names of `TORCH_TO_TCF_PASSES` joined by
commas in tuple order, then runs a second, separately constructed backend
pipeline obtained from the refjit object's
`build_backend_compilation_pipeline` on a fresh pass manager, and finally
hands the transformed module, together with the runtime libraries, to
`JITModule.from_compiled_module` and returns its result. -/
theorem refjit_c1 {R P M J L E : Type} (env : Env R P M J L E)
    (b : CompilerBackend R) (m : M) (pmF : P) (m1 m2 : M)
    (hparse : env.parsePipeline tcfPipelineStr = Except.ok pmF)
    (hrun1 : env.runPM pmF m = Except.ok m1)
    (hrun2 : env.runPM (env.buildBackendCompilationPipeline b._refjit
        env.newPassManager) m1 = Except.ok m2) :
    (CompilerBackend.compile env b m).1
      = Except.ok (m2, env.fromCompiledModule b._refjit m2 env.getRuntimeLibs)
    ∧ (CompilerBackend.compile env b m).2.filter Event.isExternCall
      = [Event.parsePass tcfPipelineStr,
         Event.runPM pmF m,
         Event.newPassManager,
         Event.buildBackendCompilationPipeline env.newPassManager,
         Event.runPM (env.buildBackendCompilationPipeline b._refjit
           env.newPassManager) m1,
         Event.getRuntimeLibs,
         Event.fromCompiledModule m2 env.getRuntimeLibs] := by
  obtain ⟨r, d⟩ := b
  cases d <;>
    simp [CompilerBackend.compile, hparse, hrun1, hrun2, Event.isExternCall,
      List.filter_append]

/-- Witness for claim C1: the full compile sequence at a concrete
environment, with the module state observably transformed at each step. -/
theorem refjit_c1_witness :
    (CompilerBackend.compile envOk bQuiet ([] : List String)).1
      = Except.ok ([tcfPipelineStr, "backend"], [tcfPipelineStr, "backend"])
    ∧ (CompilerBackend.compile envOk bQuiet ([] : List String)).2.filter
        Event.isExternCall
      = [Event.parsePass tcfPipelineStr,
         Event.runPM tcfPipelineStr [],
         Event.newPassManager,
         Event.buildBackendCompilationPipeline "",
         Event.runPM "backend" [tcfPipelineStr],
         Event.getRuntimeLibs,
         Event.fromCompiledModule [tcfPipelineStr, "backend"] ()] :=
  refjit_c1 envOk bQuiet [] tcfPipelineStr [tcfPipelineStr]
    [tcfPipelineStr, "backend"] rfl rfl rfl

/-- Claim C3: `CompilerBackend.compile_object_graph` first runs the
pipeline whose string is exactly the names of
`OBJECT_GRAPH_LOWERING_PASSES` joined by commas in tuple order, and then
returns the result of `compile` on the transformed module: object-graph
compilation is the object-graph lowering pipeline followed by the
ordinary compile sequence. -/
theorem refjit_c3 {R P M J L E : Type} (env : Env R P M J L E)
    (b : CompilerBackend R) (m : M) (pmOG : P) (m1 : M)
    (hparse : env.parsePipeline objectGraphPipelineStr = Except.ok pmOG)
    (hrun : env.runPM pmOG m = Except.ok m1) :
    (CompilerBackend.compileObjectGraph env b m).1
      = (CompilerBackend.compile env b m1).1
    ∧ (CompilerBackend.compileObjectGraph env b m).2.filter Event.isExternCall
      = [Event.parsePass objectGraphPipelineStr, Event.runPM pmOG m]
        ++ (CompilerBackend.compile env b m1).2.filter Event.isExternCall := by
  obtain ⟨r, d⟩ := b
  cases d <;>
    simp [CompilerBackend.compileObjectGraph, hparse, hrun, Event.isExternCall,
      List.filter_append]

/-- Witness for claim C3 at a concrete environment. -/
theorem refjit_c3_witness :
    (CompilerBackend.compileObjectGraph envOk bQuiet ([] : List String)).1
      = (CompilerBackend.compile envOk bQuiet [objectGraphPipelineStr]).1
    ∧ (CompilerBackend.compileObjectGraph envOk bQuiet
          ([] : List String)).2.filter Event.isExternCall
      = [Event.parsePass objectGraphPipelineStr,
         Event.runPM objectGraphPipelineStr []]
        ++ (CompilerBackend.compile envOk bQuiet
            [objectGraphPipelineStr]).2.filter Event.isExternCall :=
  refjit_c3 envOk bQuiet [] objectGraphPipelineStr [objectGraphPipelineStr]
    rfl rfl

/-- Claim C5: no failure-recovery logic: if the pipeline parse or a
pipeline run fails, the error propagates unchanged to the caller, and no
later external call of the sequence is made after the failing step, in
`compile` as well as in `compile_object_graph`. -/
theorem refjit_c5 {R P M J L E : Type} (env : Env R P M J L E)
    (b : CompilerBackend R) (m : M) (e : E) :
    (env.parsePipeline tcfPipelineStr = Except.error e →
      (CompilerBackend.compile env b m).1 = Except.error e
      ∧ (CompilerBackend.compile env b m).2.filter Event.isExternCall
          = [Event.parsePass tcfPipelineStr])
    ∧ (∀ pmF, env.parsePipeline tcfPipelineStr = Except.ok pmF →
        env.runPM pmF m = Except.error e →
        (CompilerBackend.compile env b m).1 = Except.error e
        ∧ (CompilerBackend.compile env b m).2.filter Event.isExternCall
            = [Event.parsePass tcfPipelineStr, Event.runPM pmF m])
    ∧ (∀ pmF m1, env.parsePipeline tcfPipelineStr = Except.ok pmF →
        env.runPM pmF m = Except.ok m1 →
        env.runPM (env.buildBackendCompilationPipeline b._refjit
          env.newPassManager) m1 = Except.error e →
        (CompilerBackend.compile env b m).1 = Except.error e
        ∧ (CompilerBackend.compile env b m).2.filter Event.isExternCall
            = [Event.parsePass tcfPipelineStr, Event.runPM pmF m,
               Event.newPassManager,
               Event.buildBackendCompilationPipeline env.newPassManager,
               Event.runPM (env.buildBackendCompilationPipeline b._refjit
                 env.newPassManager) m1])
    ∧ (env.parsePipeline objectGraphPipelineStr = Except.error e →
        (CompilerBackend.compileObjectGraph env b m).1 = Except.error e
        ∧ (CompilerBackend.compileObjectGraph env b m).2.filter
            Event.isExternCall
          = [Event.parsePass objectGraphPipelineStr])
    ∧ (∀ pmOG, env.parsePipeline objectGraphPipelineStr = Except.ok pmOG →
        env.runPM pmOG m = Except.error e →
        (CompilerBackend.compileObjectGraph env b m).1 = Except.error e
        ∧ (CompilerBackend.compileObjectGraph env b m).2.filter
            Event.isExternCall
          = [Event.parsePass objectGraphPipelineStr, Event.runPM pmOG m]) := by
  obtain ⟨r, d⟩ := b
  refine ⟨?_, ?_, ?_, ?_, ?_⟩
  · intro hp
    cases d <;>
      simp [CompilerBackend.compile, hp, Event.isExternCall, List.filter_append]
  · intro pmF hp hr
    cases d <;>
      simp [CompilerBackend.compile, hp, hr, Event.isExternCall,
        List.filter_append]
  · intro pmF m1 hp hr1 hr2
    cases d <;>
      simp [CompilerBackend.compile, hp, hr1, hr2, Event.isExternCall,
        List.filter_append]
  · intro hp
    cases d <;>
      simp [CompilerBackend.compileObjectGraph, hp, Event.isExternCall,
        List.filter_append]
  · intro pmOG hp hr
    cases d <;>
      simp [CompilerBackend.compileObjectGraph, hp, hr, Event.isExternCall,
        List.filter_append]

/-- Witness for claim C5: concrete failing environments for each failure
point, with the error propagated and the trace stopping at the failing
call. -/
theorem refjit_c5_witness :
    (CompilerBackend.compile envParseFail bQuiet ([] : List String)).1
      = Except.error 7
    ∧ (CompilerBackend.compile envRunFail bQuiet ([] : List String)).1
      = Except.error 9
    ∧ (CompilerBackend.compile envBackendRunFail bQuiet ([] : List String)).1
      = Except.error 11
    ∧ (CompilerBackend.compileObjectGraph envParseFail bQuiet
        ([] : List String)).1 = Except.error 7
    ∧ (CompilerBackend.compileObjectGraph envRunFail bQuiet
        ([] : List String)).1 = Except.error 9
    ∧ (CompilerBackend.compile envBackendRunFail bQuiet
          ([] : List String)).2.filter Event.isExternCall
      = [Event.parsePass tcfPipelineStr, Event.runPM tcfPipelineStr [],
         Event.newPassManager, Event.buildBackendCompilationPipeline "",
         Event.runPM "backend" [tcfPipelineStr]] := by
  have h3 := (refjit_c5 envBackendRunFail bQuiet [] 11).2.2.1 tcfPipelineStr
    [tcfPipelineStr] rfl rfl rfl
  refine ⟨?_, ?_, h3.1, ?_, ?_, h3.2⟩
  · exact ((refjit_c5 envParseFail bQuiet [] 7).1 rfl).1
  · exact ((refjit_c5 envRunFail bQuiet [] 9).2.1 tcfPipelineStr rfl rfl).1
  · exact ((refjit_c5 envParseFail bQuiet [] 7).2.2.2.1 rfl).1
  · exact ((refjit_c5 envRunFail bQuiet [] 9).2.2.2.2
      objectGraphPipelineStr rfl rfl).1

/-- Claim C9: the compile methods transform the caller's module in place:
after a successful `compile` (and after a successful
`compile_object_graph`), the state of the module object the caller passed
in is the fully lowered backend IR produced by the pipeline runs, not the
original torch-dialect IR. -/
theorem refjit_c9 {R P M J L E : Type} (env : Env R P M J L E)
    (b : CompilerBackend R) (m : M) (pmF : P) (m1 m2 : M)
    (hparse : env.parsePipeline tcfPipelineStr = Except.ok pmF)
    (hrun1 : env.runPM pmF m = Except.ok m1)
    (hrun2 : env.runPM (env.buildBackendCompilationPipeline b._refjit
        env.newPassManager) m1 = Except.ok m2) :
    (CompilerBackend.compile env b m).1
      = Except.ok (m2, env.fromCompiledModule b._refjit m2 env.getRuntimeLibs)
    ∧ (∀ pmOG m0, env.parsePipeline objectGraphPipelineStr = Except.ok pmOG →
        env.runPM pmOG m0 = Except.ok m →
        (CompilerBackend.compileObjectGraph env b m0).1
          = Except.ok (m2,
              env.fromCompiledModule b._refjit m2 env.getRuntimeLibs)) := by
  obtain ⟨r, d⟩ := b
  constructor
  · cases d <;> simp [CompilerBackend.compile, hparse, hrun1, hrun2]
  · intro pmOG m0 hpo hro
    cases d <;>
      simp [CompilerBackend.compileObjectGraph, CompilerBackend.compile,
        hpo, hro, hparse, hrun1, hrun2]

/-- Witness for claim C9: a concrete run in which the module state after
`compile` differs from the module state passed in. -/
theorem refjit_c9_witness :
    (CompilerBackend.compile envOk bQuiet ([] : List String)).1
      = Except.ok ([tcfPipelineStr, "backend"], [tcfPipelineStr, "backend"])
    ∧ ([tcfPipelineStr, "backend"] : List String) ≠ ([] : List String)
    ∧ (CompilerBackend.compileObjectGraph envOk bQuiet ([] : List String)).1
      = Except.ok ([objectGraphPipelineStr, tcfPipelineStr, "backend"],
          [objectGraphPipelineStr, tcfPipelineStr, "backend"]) := by
  have h := refjit_c9 envOk bQuiet [] tcfPipelineStr [tcfPipelineStr]
    [tcfPipelineStr, "backend"] rfl rfl rfl
  have h2 := refjit_c9 envOk bQuiet [objectGraphPipelineStr] tcfPipelineStr
    [objectGraphPipelineStr, tcfPipelineStr]
    [objectGraphPipelineStr, tcfPipelineStr, "backend"] rfl rfl rfl
  exact ⟨h.1, by decide, h2.2 objectGraphPipelineStr [] rfl rfl⟩

/-- Claim C10: the debug flag does not interfere with compilation: for
every environment and module, `compile` and `compile_object_graph` return
the same outcome and make the same external calls whether `_debug` is
true or false; the debug branches only add log events. -/
theorem refjit_c10 {R P M J L E : Type} (env : Env R P M J L E) (r : R)
    (m : M) :
    (CompilerBackend.compile env ⟨r, true⟩ m).1
      = (CompilerBackend.compile env ⟨r, false⟩ m).1
    ∧ (CompilerBackend.compile env ⟨r, true⟩ m).2.filter Event.isExternCall
      = (CompilerBackend.compile env ⟨r, false⟩ m).2.filter Event.isExternCall
    ∧ (CompilerBackend.compileObjectGraph env ⟨r, true⟩ m).1
      = (CompilerBackend.compileObjectGraph env ⟨r, false⟩ m).1
    ∧ (CompilerBackend.compileObjectGraph env ⟨r, true⟩ m).2.filter
        Event.isExternCall
      = (CompilerBackend.compileObjectGraph env ⟨r, false⟩ m).2.filter
        Event.isExternCall := by
  have hc : ∀ mm : M,
      (CompilerBackend.compile env ⟨r, true⟩ mm).1
        = (CompilerBackend.compile env ⟨r, false⟩ mm).1
      ∧ (CompilerBackend.compile env ⟨r, true⟩ mm).2.filter Event.isExternCall
        = (CompilerBackend.compile env ⟨r, false⟩ mm).2.filter
          Event.isExternCall := by
    intro mm
    cases hp : env.parsePipeline tcfPipelineStr with
    | error e =>
      simp [CompilerBackend.compile, hp, Event.isExternCall,
        List.filter_append]
    | ok pm =>
      cases hr1 : env.runPM pm mm with
      | error e =>
        simp [CompilerBackend.compile, hp, hr1, Event.isExternCall,
          List.filter_append]
      | ok mm1 =>
        cases hr2 : env.runPM (env.buildBackendCompilationPipeline r
            env.newPassManager) mm1 with
        | error e =>
          simp [CompilerBackend.compile, hp, hr1, hr2, Event.isExternCall,
            List.filter_append]
        | ok mm2 =>
          simp [CompilerBackend.compile, hp, hr1, hr2, Event.isExternCall,
            List.filter_append]
  have hog :
      (CompilerBackend.compileObjectGraph env ⟨r, true⟩ m).1
        = (CompilerBackend.compileObjectGraph env ⟨r, false⟩ m).1
      ∧ (CompilerBackend.compileObjectGraph env ⟨r, true⟩ m).2.filter
          Event.isExternCall
        = (CompilerBackend.compileObjectGraph env ⟨r, false⟩ m).2.filter
          Event.isExternCall := by
    cases hp : env.parsePipeline objectGraphPipelineStr with
    | error e =>
      simp [CompilerBackend.compileObjectGraph, hp, Event.isExternCall,
        List.filter_append]
    | ok pm =>
      cases hr : env.runPM pm m with
      | error e =>
        simp [CompilerBackend.compileObjectGraph, hp, hr, Event.isExternCall,
          List.filter_append]
      | ok mm1 =>
        simp [CompilerBackend.compileObjectGraph, hp, hr, Event.isExternCall,
          List.filter_append, (hc mm1).1, (hc mm1).2]
  exact ⟨(hc m).1, (hc m).2, hog.1, hog.2⟩

/-- Counterexample to claim C6 as stated: at a concrete environment and
module, a successful run of `compile` makes seven calls into external
collaborators, not three. -/
theorem refjit_c6_counterexample :
    ((CompilerBackend.compile envOk bQuiet ([] : List String)).2.filter
        Event.isExternCall).length = 7
    ∧ ((CompilerBackend.compile envOk bQuiet ([] : List String)).2.filter
        Event.isExternCall).length ≠ 3 := by
  constructor
  · rfl
  · intro h
    rw [show ((CompilerBackend.compile envOk bQuiet
        ([] : List String)).2.filter Event.isExternCall).length = 7 from rfl]
      at h
    exact absurd h (by decide)

/-- Claim C6 as amended: on every successful run, `compile` makes exactly
seven calls into external collaborators — pipeline parse, frontend
pipeline run, pass-manager construction, backend pipeline construction,
backend pipeline run, runtime-library lookup, and JIT module
construction — rather than three. -/
theorem refjit_c6 {R P M J L E : Type} (env : Env R P M J L E)
    (b : CompilerBackend R) (m : M) (pmF : P) (m1 m2 : M)
    (hparse : env.parsePipeline tcfPipelineStr = Except.ok pmF)
    (hrun1 : env.runPM pmF m = Except.ok m1)
    (hrun2 : env.runPM (env.buildBackendCompilationPipeline b._refjit
        env.newPassManager) m1 = Except.ok m2) :
    ((CompilerBackend.compile env b m).2.filter Event.isExternCall).length
      = 7 := by
  obtain ⟨r, d⟩ := b
  cases d <;>
    simp [CompilerBackend.compile, hparse, hrun1, hrun2, Event.isExternCall,
      List.filter_append]

/-- Witness for the amended claim C6 at a concrete environment. -/
theorem refjit_c6_witness :
    ((CompilerBackend.compile envOk bQuiet ([] : List String)).2.filter
        Event.isExternCall).length = 7 :=
  refjit_c6 envOk bQuiet [] tcfPipelineStr [tcfPipelineStr]
    [tcfPipelineStr, "backend"] rfl rfl rfl

end RefJit
